import Mathlib

/-!
# Waybar Pomodoro Timer — shallow embedding

A shallow embedding of the pomodoro timer state machine from
`waybar_pomodoro/core.py` and the per-invocation pipeline from
`waybar_pomodoro/main.py`, together with proofs of the specification's
claims about it.

Modelling conventions:
* Wall-clock instants (`datetime`) and second counts (`timedelta` /
  `total_seconds`) are rationals (`ℚ`): `datetime` arithmetic is exact in
  the model, which is the standard idealisation of float timestamps.
* Python exceptions are modelled with `Except PyExc`; a `try/except`
  becomes a `match` on the `Except` value.
* All functions of the source that read `datetime.now()` internally
  (`start_session`, `toggle_pause`, `cycle_state`, `get_output`) take the
  current instant `now : ℚ` as an explicit argument; a single invocation
  passes the same instant everywhere (the drift of microseconds between
  the successive `datetime.now()` calls of one process is not modelled).
-/

namespace Pomodoro

/-- Python exception classes that the embedded code can raise or catch. -/
inductive PyExc where
  | keyError
  | typeError
  | valueError
  | ioError
  | jsonDecodeError
  deriving DecidableEq

/-- `class SessionType(Enum)` — the type of session (core.py:20). -/
inductive SessionType where
  | WORK
  | SHORT_BREAK
  | LONG_BREAK
  deriving DecidableEq

/-- `SessionType.__str__` returns `self.value` (core.py:26): the enum values
are `"WORK"`, `"SHORT BREAK"`, `"LONG BREAK"`. -/
def SessionType.str : SessionType → String
  | .WORK => "WORK"
  | .SHORT_BREAK => "SHORT BREAK"
  | .LONG_BREAK => "LONG BREAK"

/-- `class TimerState(Enum)` — the running state of the timer (core.py:29). -/
inductive TimerState where
  | STOPPED
  | RUNNING
  | PAUSED
  | FINISHED
  deriving DecidableEq

/-- Configuration constant `WORK_MINS = 25` (core.py:11). -/
def WORK_MINS : Int := 25

/-- Configuration constant `SHORT_BREAK_MINS = 5` (core.py:12). -/
def SHORT_BREAK_MINS : Int := 5

/-- Configuration constant `LONG_BREAK_MINS = 15` (core.py:13). -/
def LONG_BREAK_MINS : Int := 15

/-- Configuration constant `SESSIONS_PER_CYCLE = 4` (core.py:14). -/
def SESSIONS_PER_CYCLE : Int := 4

/-- `class PomodoroState` (core.py:38) — the persisted timer record.
`end_time` is an optional absolute instant; `remaining_secs` is the float
`total_seconds` value; `work_sessions` is a Python int. -/
structure PomodoroState where
  state : TimerState
  session_type : SessionType
  end_time : Option ℚ
  remaining_secs : ℚ
  work_sessions : Int
  deriving DecidableEq

/-- `PomodoroState.stopped()` (core.py:74): the canonical default record
`{STOPPED, WORK, end_time=None, remaining_secs=0, work_sessions=0}`. -/
def PomodoroState.stopped : PomodoroState :=
  ⟨TimerState.STOPPED, SessionType.WORK, none, 0, 0⟩

/-- `get_session_duration_secs` (core.py:105): session duration in seconds. -/
def get_session_duration_secs : SessionType → Int
  | .WORK => WORK_MINS * 60
  | .SHORT_BREAK => SHORT_BREAK_MINS * 60
  | .LONG_BREAK => LONG_BREAK_MINS * 60

/-- `start_session` (core.py:115): starts a new running session of the given
type at instant `now`, with `end_time = now + duration` and
`remaining_secs = duration`. -/
def start_session (session_type : SessionType) (work_sessions : Int)
    (now : ℚ) : PomodoroState :=
  let duration_secs := get_session_duration_secs session_type
  { state := TimerState.RUNNING
    session_type := session_type
    end_time := some (now + (duration_secs : ℚ))
    remaining_secs := (duration_secs : ℚ)
    work_sessions := work_sessions }

/-- `toggle_pause` (core.py:129). In the RUNNING branch the source computes
`(state.end_time - now).total_seconds()` without a `None` guard, so a
RUNNING record with `end_time = None` raises `TypeError`. -/
def toggle_pause (s : PomodoroState) (now : ℚ) : Except PyExc PomodoroState :=
  match s.state with
  | TimerState.RUNNING =>
    match s.end_time with
    | none => Except.error PyExc.typeError
    | some e =>
      Except.ok { s with
        state := TimerState.PAUSED
        remaining_secs := e - now
        end_time := none }
  | TimerState.PAUSED =>
    Except.ok { s with
      state := TimerState.RUNNING
      end_time := some (now + s.remaining_secs) }
  | _ => Except.ok s

/-- `stop_timer` (core.py:148): resets to the default state. -/
def stop_timer : PomodoroState := PomodoroState.stopped

/-- `cycle_state` (core.py:152): advance to the next logical state. Python's
`%` on ints is floor modulus, i.e. `Int.fmod`. -/
def cycle_state (s : PomodoroState) (now : ℚ) : PomodoroState :=
  if s.state = TimerState.RUNNING ∨ s.state = TimerState.PAUSED then
    stop_timer
  else if s.state = TimerState.STOPPED then
    start_session SessionType.WORK 0 now
  else if s.state = TimerState.FINISHED then
    match s.session_type with
    | SessionType.WORK =>
      if (s.work_sessions + 1).fmod SESSIONS_PER_CYCLE = 0 then
        start_session SessionType.LONG_BREAK (s.work_sessions + 1) now
      else
        start_session SessionType.SHORT_BREAK (s.work_sessions + 1) now
    | SessionType.SHORT_BREAK =>
      start_session SessionType.WORK s.work_sessions now
    | SessionType.LONG_BREAK =>
      start_session SessionType.WORK 0 now
  else s

/-- Python `int(x)` on a float truncates toward zero. -/
def pytrunc (q : ℚ) : Int := if q < 0 then ⌈q⌉ else ⌊q⌋

/-- Python `format(n, '02d')`: decimal rendering of `n` left-padded with
zeros to a total width of 2 (the sign counts toward the width, so a
negative value of one or more digits is never padded at width 2). -/
def pad02 (n : Int) : String :=
  let s := toString n
  if s.length < 2 then "0" ++ s else s

/-- `mins, secs = divmod(n, 60); f"{mins:02d}:{secs:02d}"` — Python's
`divmod` is floor division and floor modulus (`Int.fdiv` / `Int.fmod`). -/
def mmss (n : Int) : String :=
  pad02 (n.fdiv 60) ++ ":" ++ pad02 (n.fmod 60)

/-- The waybar payload dict `{text, tooltip, class}` built by `get_output`. -/
structure Output where
  text : String
  tooltip : String
  css_class : String
  deriving DecidableEq

/-- The glyph used for STOPPED and for a RUNNING work session
(core.py:204, core.py:244; the source file stores these exact characters). -/
def ICON_TOMATO : String := "üçÖ"

/-- The glyph of the FINISHED text, followed by `" 00:00"` (core.py:223). -/
def ICON_PARTY : String := "üéâ"

/-- The PAUSED glyph (core.py:230). -/
def ICON_PAUSE : String := "‚è∏Ô∏è"

/-- The glyph for a RUNNING break session (core.py:244). -/
def ICON_COFFEE : String := "‚òï"

/-- Step 1 of `get_output` (core.py:196–199): the completion check. The
guard is `state.state == RUNNING and state.end_time and now >= end_time`
(a `datetime` is always truthy, `None` is falsy). -/
def completionCheck (s : PomodoroState) (now : ℚ) : PomodoroState :=
  match s.state, s.end_time with
  | TimerState.RUNNING, some e =>
    if e ≤ now then
      { s with state := TimerState.FINISHED, end_time := none,
               remaining_secs := 0 }
    else s
  | _, _ => s

/-- Step 2 of `get_output` (core.py:201–261): formats the (already
completion-checked) record into the waybar payload. Read-only: it takes the
record and returns only an `Output`. The RUNNING branch subtracts
`state.end_time - now` without a `None` guard (core.py:245), which raises
`TypeError` when `end_time` is absent. -/
def formatOutput (s : PomodoroState) (now : ℚ) : Except PyExc Output :=
  match s.state with
  | TimerState.STOPPED =>
    Except.ok ⟨ICON_TOMATO,
      "Pomodoro Stopped\nRight-click to start work.", "stopped"⟩
  | TimerState.FINISHED =>
    let next_session_type : String :=
      match s.session_type with
      | SessionType.WORK =>
        if (s.work_sessions + 1).fmod SESSIONS_PER_CYCLE = 0 then
          SessionType.str SessionType.LONG_BREAK
        else
          SessionType.str SessionType.SHORT_BREAK
      | SessionType.SHORT_BREAK => SessionType.str SessionType.WORK
      | SessionType.LONG_BREAK => SessionType.str SessionType.WORK
    Except.ok ⟨ICON_PARTY ++ " 00:00",
      SessionType.str s.session_type ++ " finished!\nRight-click to start "
        ++ next_session_type ++ ".", "finished"⟩
  | TimerState.PAUSED =>
    let time_str := mmss (pytrunc s.remaining_secs)
    Except.ok ⟨ICON_PAUSE ++ " " ++ time_str,
      "Paused: " ++ SessionType.str s.session_type ++ "\nClick to resume.",
      "paused"⟩
  | TimerState.RUNNING =>
    match s.end_time with
    | none => Except.error PyExc.typeError
    | some e =>
      let icon := if s.session_type = SessionType.WORK then ICON_TOMATO
                  else ICON_COFFEE
      let remaining := max 0 (e - now)
      let time_str := mmss (pytrunc remaining)
      Except.ok ⟨icon ++ " " ++ time_str,
        SessionType.str s.session_type ++ "\nClick to pause.",
        if s.session_type = SessionType.WORK then "work" else "break"⟩

/-- `get_output` (core.py:189): first the completion check mutates the
record, then the payload is formatted from the updated record. Modelled as
returning the updated record together with the payload. -/
def get_output (s : PomodoroState) (now : ℚ) :
    Except PyExc (PomodoroState × Output) :=
  let s1 := completionCheck s now
  (formatOutput s1 now).map (fun o => (s1, o))

/-- The command token of one invocation (main.py:44): `"toggle"`,
`"stop"`, `"cycle"`, or `"status"` (the default / no-op). -/
inductive Command where
  | status
  | toggle
  | stop
  | cycle
  deriving DecidableEq

/-- The command-dispatch block of `main` (main.py:46–54): the explicit
command is applied to the loaded record before `get_output` runs. -/
def applyCommand (s : PomodoroState) (c : Command) (now : ℚ) :
    Except PyExc PomodoroState :=
  match c with
  | Command.status => Except.ok s
  | Command.toggle => toggle_pause s now
  | Command.stop => Except.ok stop_timer
  | Command.cycle => Except.ok (cycle_state s now)

/-- One full invocation of `main` (main.py:32–72), viewed through the record
it persists: the command is applied, then `get_output` performs the
completion check and formats the payload, then the updated record is saved.
If any step raises, the top-level `except` prints an error payload and the
state file is left unchanged (no `save_state` call is reached). -/
def apply (s : PomodoroState) (c : Command) (now : ℚ) : PomodoroState :=
  match applyCommand s c now with
  | Except.error _ => s
  | Except.ok s1 =>
    match get_output s1 now with
    | Except.error _ => s
    | Except.ok (s2, _) => s2

/-! ## Persistence: `from_dict` and `load_state`

The persisted JSON dict is modelled field-by-field. A JSON string that is a
well-formed ISO-8601 timestamp denoting the instant `t` is represented as
`JsonVal.tsStr t`; any other JSON string as `JsonVal.str s`
(`datetime.fromisoformat` succeeds exactly on the former and raises
`ValueError` on the latter, `TypeError` on non-strings). JSON booleans,
arrays and objects, and numeric strings passed to `float`/`int`, are not
modelled: no claim exercises them. -/

/-- A JSON value as stored in a field of the state file. -/
inductive JsonVal where
  | null
  | num (q : ℚ)
  | tsStr (t : ℚ)
  | str (s : String)
  deriving DecidableEq

/-- Python truthiness of a JSON value: `None`, `0` and `""` are falsy; an
ISO timestamp string is never empty, hence truthy. -/
def JsonVal.truthy : JsonVal → Bool
  | .null => false
  | .num q => q ≠ 0
  | .tsStr _ => true
  | .str s => s ≠ ""

/-- The decoded JSON dict of the state file, restricted to the five keys
`from_dict` reads; `none` means the key is missing. -/
structure RawDict where
  state : Option JsonVal
  session_type : Option JsonVal
  end_time : Option JsonVal
  remaining_secs : Option JsonVal
  work_sessions : Option JsonVal
  deriving DecidableEq

/-- `data[key]`: raises `KeyError` when the key is missing. -/
def getKey (v : Option JsonVal) : Except PyExc JsonVal :=
  match v with
  | none => Except.error PyExc.keyError
  | some x => Except.ok x

/-- `TimerState[name]`: enum lookup by name; any non-matching or non-string
key raises `KeyError`. -/
def timerStateByName (v : JsonVal) : Except PyExc TimerState :=
  match v with
  | .str "STOPPED" => Except.ok TimerState.STOPPED
  | .str "RUNNING" => Except.ok TimerState.RUNNING
  | .str "PAUSED" => Except.ok TimerState.PAUSED
  | .str "FINISHED" => Except.ok TimerState.FINISHED
  | _ => Except.error PyExc.keyError

/-- `SessionType[name]`: enum lookup by member name (`"WORK"`,
`"SHORT_BREAK"`, `"LONG_BREAK"` — the names, not the values). -/
def sessionTypeByName (v : JsonVal) : Except PyExc SessionType :=
  match v with
  | .str "WORK" => Except.ok SessionType.WORK
  | .str "SHORT_BREAK" => Except.ok SessionType.SHORT_BREAK
  | .str "LONG_BREAK" => Except.ok SessionType.LONG_BREAK
  | _ => Except.error PyExc.keyError

/-- `datetime.fromisoformat(x)`: succeeds on a well-formed ISO timestamp
string, raises `ValueError` on any other string and `TypeError` on a
non-string argument. -/
def fromisoformat (v : JsonVal) : Except PyExc ℚ :=
  match v with
  | .tsStr t => Except.ok t
  | .str _ => Except.error PyExc.valueError
  | _ => Except.error PyExc.typeError

/-- `float(x)`: a JSON number converts; `None` raises `TypeError`; a
non-numeric string raises `ValueError`. -/
def pyFloat (v : JsonVal) : Except PyExc ℚ :=
  match v with
  | .num q => Except.ok q
  | .null => Except.error PyExc.typeError
  | _ => Except.error PyExc.valueError

/-- `int(x)`: a JSON number truncates toward zero; `None` raises
`TypeError`; a non-numeric string raises `ValueError`. -/
def pyIntOf (v : JsonVal) : Except PyExc Int :=
  match v with
  | .num q => Except.ok (pytrunc q)
  | .null => Except.error PyExc.typeError
  | _ => Except.error PyExc.valueError

/-- `PomodoroState.from_dict` (core.py:59–72): decodes the dict; the
`except (KeyError, TypeError)` clause returns the clean default state, but
any `ValueError` (malformed timestamp, non-numeric number field) escapes
the clause and propagates. -/
def PomodoroState.from_dict (data : RawDict) : Except PyExc PomodoroState :=
  let body : Except PyExc PomodoroState := do
    let stateVal ← getKey data.state
    let state ← timerStateByName stateVal
    let styVal ← getKey data.session_type
    let session_type ← sessionTypeByName styVal
    let etVal ← getKey data.end_time
    let end_time ← if etVal.truthy then
        (fromisoformat etVal).map some
      else
        pure none
    let remaining_secs ← pyFloat (data.remaining_secs.getD (JsonVal.num 0))
    let work_sessions ← pyIntOf (data.work_sessions.getD (JsonVal.num 0))
    pure ⟨state, session_type, end_time, remaining_secs, work_sessions⟩
  match body with
  | Except.error PyExc.keyError => Except.ok PomodoroState.stopped
  | Except.error PyExc.typeError => Except.ok PomodoroState.stopped
  | r => r

/-- The condition of the backing state file as `load_state` finds it. -/
inductive FileCond where
  | missing
  | unreadable
  | undecodable
  | content (data : RawDict)
  deriving DecidableEq

/-- `load_state` (core.py:81–92): a missing file yields the default state;
`json.JSONDecodeError` and `IOError` are caught and yield the default
state; anything `from_dict` propagates (its uncaught `ValueError`)
propagates out of `load_state` as well. -/
def load_state (f : FileCond) : Except PyExc PomodoroState :=
  match f with
  | FileCond.missing => Except.ok PomodoroState.stopped
  | FileCond.unreadable => Except.ok PomodoroState.stopped
  | FileCond.undecodable => Except.ok PomodoroState.stopped
  | FileCond.content data => PomodoroState.from_dict data

/-! ## The counter invariant (for C10) -/

/-- The invariant of `work_sessions`: it stays in `[0, SESSIONS_PER_CYCLE]`
and reaches the top value only during a long break. -/
def counterInv (s : PomodoroState) : Prop :=
  0 ≤ s.work_sessions ∧ s.work_sessions ≤ 4 ∧
    (s.work_sessions = 4 → s.session_type = SessionType.LONG_BREAK)

instance (s : PomodoroState) : Decidable (counterInv s) := by
  unfold counterInv; infer_instance

instance {ε α : Type} [DecidableEq ε] [DecidableEq α] :
    DecidableEq (Except ε α) := fun a b =>
  match a, b with
  | Except.ok x, Except.ok y =>
    if h : x = y then isTrue (by rw [h])
    else isFalse (by intro hh; cases hh; exact h rfl)
  | Except.error x, Except.error y =>
    if h : x = y then isTrue (by rw [h])
    else isFalse (by intro hh; cases hh; exact h rfl)
  | Except.ok _, Except.error _ => isFalse (by intro h; cases h)
  | Except.error _, Except.ok _ => isFalse (by intro h; cases h)

/-! ## Helper lemmas -/

/-- The record returned by `get_output` is exactly the completion-checked
record: the formatting step contributes nothing to the state. -/
lemma get_output_ok_state (s : PomodoroState) (t : ℚ) (s' : PomodoroState)
    (o : Output) (h : get_output s t = Except.ok (s', o)) :
    s' = completionCheck s t := by
  unfold get_output at h
  dsimp only at h
  cases hf : formatOutput (completionCheck s t) t with
  | error e => rw [hf] at h; simp [Except.map] at h
  | ok o' =>
    rw [hf] at h
    simp only [Except.map, Except.ok.injEq, Prod.mk.injEq] at h
    exact h.1.symm

/-- The completion check leaves any non-RUNNING record untouched. -/
lemma completionCheck_of_not_running (s : PomodoroState) (t : ℚ)
    (h : s.state ≠ TimerState.RUNNING) : completionCheck s t = s := by
  rcases s with ⟨st, sty, et, rem, w⟩
  simp only at h
  unfold completionCheck
  cases st <;> cases et <;> simp_all

/-- The completion check never touches `work_sessions` or `session_type`. -/
lemma completionCheck_fields (s : PomodoroState) (t : ℚ) :
    (completionCheck s t).work_sessions = s.work_sessions ∧
    (completionCheck s t).session_type = s.session_type := by
  rcases s with ⟨st, sty, et, rem, w⟩
  unfold completionCheck
  cases st <;> rcases et with _ | e <;> try exact ⟨rfl, rfl⟩
  by_cases h : e ≤ t <;> simp [h]

/-- `toggle_pause` never touches `work_sessions` or `session_type`. -/
lemma toggle_pause_fields (s : PomodoroState) (t : ℚ) (s1 : PomodoroState)
    (h : toggle_pause s t = Except.ok s1) :
    s1.work_sessions = s.work_sessions ∧
    s1.session_type = s.session_type := by
  rcases s with ⟨st, sty, et, rem, w⟩
  unfold toggle_pause at h
  cases st <;> cases et <;> simp_all <;> subst h <;> simp

/-- `formatOutput` succeeds on every record except a RUNNING one with no
`end_time`. -/
lemma formatOutput_ok (s : PomodoroState) (t : ℚ)
    (h : s.state = TimerState.RUNNING → s.end_time ≠ none) :
    ∃ o, formatOutput s t = Except.ok o := by
  rcases s with ⟨st, sty, et, rem, w⟩
  simp only at h
  unfold formatOutput
  cases st <;> simp_all
  cases et with
  | none => exact absurd rfl h
  | some e => simp

/-! ## Claims -/

/-- **C1 (counterexample).** The claim says the completion check runs before
any explicit command, so an expired RUNNING record should end up FINISHED
regardless of command. On the record `{RUNNING, WORK, end_time=100,
remaining_secs=1500, work_sessions=0}` with `now = 200` and command
`toggle`, the invocation instead persists a PAUSED record (the command is
dispatched before `get_output`'s completion check, so `toggle_pause` sees
the stale RUNNING state). -/
theorem c1_completion_before_command_counterexample :
    Pomodoro.apply
        ⟨TimerState.RUNNING, SessionType.WORK, some 100, 1500, 0⟩
        Command.toggle 200
      = ⟨TimerState.PAUSED, SessionType.WORK, none, 100 - 200, 0⟩ ∧
    (Pomodoro.apply
        ⟨TimerState.RUNNING, SessionType.WORK, some 100, 1500, 0⟩
        Command.toggle 200).state ≠ TimerState.FINISHED := by
  constructor
  · rfl
  · decide

/-- **C1 (amended).** The completion check runs on every invocation, but
inside the output-generation step, *after* the explicit command: whenever
the post-command record is RUNNING with `end_time ≤ now`, the invocation
persists it as FINISHED with `end_time` cleared and `remaining_secs = 0`.
(The explicit command itself observes the record before that check.) -/
theorem c1_completion_after_command (s s1 : PomodoroState) (c : Command)
    (t e : ℚ) (h1 : applyCommand s c t = Except.ok s1)
    (h2 : s1.state = TimerState.RUNNING)
    (h3 : s1.end_time = some e) (h4 : e ≤ t) :
    Pomodoro.apply s c t
      = { s1 with state := TimerState.FINISHED, end_time := none,
                  remaining_secs := 0 } := by
  unfold Pomodoro.apply
  rw [h1]
  rcases s1 with ⟨st, sty, et, rem, w⟩
  simp only at h2 h3
  subst h2; subst h3
  simp [get_output, completionCheck, formatOutput, Except.map, h4]

/-- Closed instance of `c1_completion_after_command`: a `status` invocation
on an expired RUNNING work record finishes it. -/
theorem c1_completion_after_command_witness :
    Pomodoro.apply ⟨TimerState.RUNNING, SessionType.WORK, some 100, 1500, 2⟩
        Command.status 200
      = ⟨TimerState.FINISHED, SessionType.WORK, none, 0, 2⟩ := by
  have h := c1_completion_after_command
    ⟨TimerState.RUNNING, SessionType.WORK, some 100, 1500, 2⟩
    ⟨TimerState.RUNNING, SessionType.WORK, some 100, 1500, 2⟩
    Command.status 200 100 rfl rfl rfl (by norm_num)
  simpa using h

/-- **C2.** `load()` returns the canonical default record on a missing,
unreadable or undecodable file and on an unknown enum tag or missing field
— but on a record whose `end_time` is a malformed timestamp string,
`datetime.fromisoformat` raises `ValueError`, which `from_dict`'s
`except (KeyError, TypeError)` clause does not catch, so `load_state`
propagates the exception instead of returning the default record. -/
theorem c2_load_state_raises_on_malformed_timestamp :
    load_state (FileCond.content ⟨some (JsonVal.str "STOPPED"),
        some (JsonVal.str "WORK"), some (JsonVal.str "not-a-timestamp"),
        some (JsonVal.num 0), some (JsonVal.num 0)⟩)
      = Except.error PyExc.valueError ∧
    load_state FileCond.missing = Except.ok PomodoroState.stopped ∧
    load_state FileCond.unreadable = Except.ok PomodoroState.stopped ∧
    load_state FileCond.undecodable = Except.ok PomodoroState.stopped ∧
    load_state (FileCond.content ⟨some (JsonVal.str "BOGUS"),
        some (JsonVal.str "WORK"), some JsonVal.null,
        some (JsonVal.num 0), some (JsonVal.num 0)⟩)
      = Except.ok PomodoroState.stopped ∧
    load_state (FileCond.content ⟨none, none, none, none, none⟩)
      = Except.ok PomodoroState.stopped := by
  exact ⟨rfl, rfl, rfl, rfl, rfl, rfl⟩

/-- **C3.** The rendering step is pure and read-only: the record that
`get_output` returns is exactly the completion-checked record (formatting
contributes no field change), and the completion check itself leaves every
non-RUNNING record untouched — so the Running→Finished transition happens
only in the completion check, never in formatting. -/
theorem c3_render_read_only (s : PomodoroState) (t : ℚ) :
    (∀ s' o, get_output s t = Except.ok (s', o) → s' = completionCheck s t) ∧
    (s.state ≠ TimerState.RUNNING → completionCheck s t = s) := by
  exact ⟨fun s' o h => get_output_ok_state s t s' o h,
         fun h => completionCheck_of_not_running s t h⟩

/-- Closed instance of `c3_render_read_only`: the completion check leaves a
PAUSED record unchanged. -/
theorem c3_render_read_only_witness :
    completionCheck ⟨TimerState.PAUSED, SessionType.WORK, none, 5, 1⟩ 0
      = ⟨TimerState.PAUSED, SessionType.WORK, none, 5, 1⟩ :=
  (c3_render_read_only ⟨TimerState.PAUSED, SessionType.WORK, none, 5, 1⟩ 0).2
    (by decide)

/-- **C4.** `Cycle` from FINISHED/WORK computes `next_count =
work_sessions + 1`, starts a LONG_BREAK when `next_count mod
SESSIONS_PER_CYCLE = 0` and a SHORT_BREAK otherwise, carrying
`work_sessions = next_count` into the new record; in particular from
`work_sessions = 3` it starts a LONG_BREAK with `work_sessions = 4`. -/
theorem c4_cycle_finished_work (s : PomodoroState) (t : ℚ)
    (hf : s.state = TimerState.FINISHED)
    (hw : s.session_type = SessionType.WORK) :
    ((s.work_sessions + 1).fmod SESSIONS_PER_CYCLE = 0 →
      cycle_state s t
        = start_session SessionType.LONG_BREAK (s.work_sessions + 1) t) ∧
    ((s.work_sessions + 1).fmod SESSIONS_PER_CYCLE ≠ 0 →
      cycle_state s t
        = start_session SessionType.SHORT_BREAK (s.work_sessions + 1) t) ∧
    (cycle_state s t).work_sessions = s.work_sessions + 1 ∧
    (cycle_state s t).state = TimerState.RUNNING ∧
    (s.work_sessions = 3 →
      cycle_state s t = start_session SessionType.LONG_BREAK 4 t ∧
      (cycle_state s t).session_type = SessionType.LONG_BREAK ∧
      (cycle_state s t).work_sessions = 4) := by
  rcases s with ⟨st, sty, et, rem, w⟩
  simp only at hf hw
  subst hf; subst hw
  unfold cycle_state
  simp only [reduceCtorEq, or_self, if_false, if_true, if_neg, if_pos]
  refine ⟨fun h => ?_, fun h => ?_, ?_, ?_, fun h3 => ?_⟩
  · simp [h]
  · simp [h]
  · by_cases h : (w + 1).fmod SESSIONS_PER_CYCLE = 0 <;>
      simp [h, start_session]
  · by_cases h : (w + 1).fmod SESSIONS_PER_CYCLE = 0 <;>
      simp [h, start_session]
  · subst h3
    have h4 : Int.fmod 4 SESSIONS_PER_CYCLE = 0 := by decide
    norm_num [h4, start_session]

/-- Closed instance of `c4_cycle_finished_work`: cycling a finished work
session with three completed work sessions starts the long break. -/
theorem c4_cycle_finished_work_witness :
    cycle_state ⟨TimerState.FINISHED, SessionType.WORK, none, 0, 3⟩ 0
      = start_session SessionType.LONG_BREAK 4 0 :=
  ((c4_cycle_finished_work
    ⟨TimerState.FINISHED, SessionType.WORK, none, 0, 3⟩ 0 rfl rfl).2.2.2.2
      rfl).1

/-- **C5.** Toggle is an involution across Running/Paused: pausing a
RUNNING record at `t` stores `remaining_secs = end_time − t` and clears
`end_time`; resuming at the same `t` restores RUNNING with the original
`end_time` (exactly, in the rational model). Symmetrically, resuming a
PAUSED record at `u` and pausing again at `u` returns exactly the original
record. -/
theorem c5_toggle_involution (s p : PomodoroState) (e t u : ℚ)
    (hr : s.state = TimerState.RUNNING) (he : s.end_time = some e)
    (hp : p.state = TimerState.PAUSED) (hpe : p.end_time = none) :
    toggle_pause s t
      = Except.ok { s with state := TimerState.PAUSED,
                           remaining_secs := e - t, end_time := none } ∧
    (toggle_pause s t >>= fun s1 => toggle_pause s1 t)
      = Except.ok { s with state := TimerState.RUNNING,
                           end_time := some e, remaining_secs := e - t } ∧
    (toggle_pause p u >>= fun p1 => toggle_pause p1 u) = Except.ok p := by
  rcases s with ⟨st, sty, et, rem, w⟩
  rcases p with ⟨st', sty', et', rem', w'⟩
  simp only at hr he hp hpe
  subst hr; subst he; subst hp; subst hpe
  refine ⟨rfl, ?_, ?_⟩
  · show Except.ok
        ({ state := TimerState.PAUSED, session_type := sty, end_time := none,
           remaining_secs := e - t, work_sessions := w } : PomodoroState)
        >>= (fun s1 => toggle_pause s1 t) = _
    show Except.ok
        ({ state := TimerState.RUNNING, session_type := sty,
           end_time := some (t + (e - t)), remaining_secs := e - t,
           work_sessions := w } : PomodoroState) = _
    norm_num
  · show Except.ok
        ({ state := TimerState.RUNNING, session_type := sty',
           end_time := some (u + rem'), remaining_secs := rem',
           work_sessions := w' } : PomodoroState)
        >>= (fun p1 => toggle_pause p1 u) = _
    show Except.ok
        ({ state := TimerState.PAUSED, session_type := sty',
           end_time := none, remaining_secs := u + rem' - u,
           work_sessions := w' } : PomodoroState) = _
    norm_num

/-- Closed instance of `c5_toggle_involution`: toggling a running work
session (ends at 1500) twice at `t = 600` restores `end_time = 1500`, and
toggling a paused record twice at one instant is the identity. -/
theorem c5_toggle_involution_witness :
    (toggle_pause ⟨TimerState.RUNNING, SessionType.WORK, some 1500, 1500, 0⟩
        600 >>= fun s1 => toggle_pause s1 600)
      = Except.ok ⟨TimerState.RUNNING, SessionType.WORK, some 1500,
          1500 - 600, 0⟩ ∧
    (toggle_pause ⟨TimerState.PAUSED, SessionType.SHORT_BREAK, none, 90, 2⟩
        7 >>= fun p1 => toggle_pause p1 7)
      = Except.ok ⟨TimerState.PAUSED, SessionType.SHORT_BREAK, none, 90, 2⟩
    := by
  have h := c5_toggle_involution
    ⟨TimerState.RUNNING, SessionType.WORK, some 1500, 1500, 0⟩
    ⟨TimerState.PAUSED, SessionType.SHORT_BREAK, none, 90, 2⟩
    1500 600 7 rfl rfl rfl rfl
  exact ⟨h.2.1, h.2.2⟩

/-- **C6.** `Stop` in any state returns exactly the canonical default
record, and `Cycle` while RUNNING or PAUSED returns that same default
record (a full reset, not a skip to the next phase). -/
theorem c6_stop_and_cycle_reset (s : PomodoroState) (t : ℚ)
    (h : s.state = TimerState.RUNNING ∨ s.state = TimerState.PAUSED) :
    stop_timer
      = (⟨TimerState.STOPPED, SessionType.WORK, none, 0, 0⟩ : PomodoroState) ∧
    cycle_state s t
      = (⟨TimerState.STOPPED, SessionType.WORK, none, 0, 0⟩ : PomodoroState)
    := by
  refine ⟨rfl, ?_⟩
  unfold cycle_state
  rw [if_pos h]
  rfl

/-- Closed instance of `c6_stop_and_cycle_reset`: cycling a running work
session resets to the default record. -/
theorem c6_stop_and_cycle_reset_witness :
    cycle_state ⟨TimerState.RUNNING, SessionType.WORK, some 5, 5, 2⟩ 0
      = ⟨TimerState.STOPPED, SessionType.WORK, none, 0, 0⟩ :=
  (c6_stop_and_cycle_reset
    ⟨TimerState.RUNNING, SessionType.WORK, some 5, 5, 2⟩ 0 (Or.inl rfl)).2

/-- **C7.** `Cycle` from FINISHED/SHORT_BREAK starts a WORK session with
`work_sessions` unchanged; `Cycle` from FINISHED/LONG_BREAK starts a WORK
session with `work_sessions` reset to 0, whatever its prior value. -/
theorem c7_cycle_finished_breaks (s : PomodoroState) (t : ℚ)
    (hf : s.state = TimerState.FINISHED) :
    (s.session_type = SessionType.SHORT_BREAK →
      cycle_state s t = start_session SessionType.WORK s.work_sessions t ∧
      (cycle_state s t).session_type = SessionType.WORK ∧
      (cycle_state s t).state = TimerState.RUNNING ∧
      (cycle_state s t).work_sessions = s.work_sessions) ∧
    (s.session_type = SessionType.LONG_BREAK →
      cycle_state s t = start_session SessionType.WORK 0 t ∧
      (cycle_state s t).session_type = SessionType.WORK ∧
      (cycle_state s t).state = TimerState.RUNNING ∧
      (cycle_state s t).work_sessions = 0) := by
  rcases s with ⟨st, sty, et, rem, w⟩
  simp only at hf
  subst hf
  constructor
  · intro hsb
    simp only at hsb
    subst hsb
    exact ⟨rfl, rfl, rfl, rfl⟩
  · intro hlb
    simp only at hlb
    subst hlb
    exact ⟨rfl, rfl, rfl, rfl⟩

/-- Closed instance of `c7_cycle_finished_breaks`: cycling a finished long
break starts work with the counter reset to 0. -/
theorem c7_cycle_finished_breaks_witness :
    cycle_state ⟨TimerState.FINISHED, SessionType.LONG_BREAK, none, 0, 4⟩ 0
      = start_session SessionType.WORK 0 0 :=
  ((c7_cycle_finished_breaks
    ⟨TimerState.FINISHED, SessionType.LONG_BREAK, none, 0, 4⟩ 0 rfl).2
      rfl).1

/-- A persisted dict with `state = "RUNNING"` and `end_time = null`. -/
def runningNullDict : RawDict :=
  ⟨some (JsonVal.str "RUNNING"), some (JsonVal.str "WORK"),
   some JsonVal.null, some (JsonVal.num 0), some (JsonVal.num 0)⟩

/-- `get_output` succeeds on every record that is not RUNNING with an
absent `end_time`. -/
lemma get_output_ok (s : PomodoroState) (t : ℚ)
    (h : s.state = TimerState.RUNNING → s.end_time ≠ none) :
    ∃ r, get_output s t = Except.ok r := by
  have h' : (completionCheck s t).state = TimerState.RUNNING →
      (completionCheck s t).end_time ≠ none := by
    rcases s with ⟨st, sty, et, rem, w⟩
    simp only at h
    unfold completionCheck
    cases st <;> rcases et with _ | e <;> simp_all
    by_cases he : e ≤ t <;> simp [he]
  obtain ⟨o, ho⟩ := formatOutput_ok (completionCheck s t) t h'
  exact ⟨(completionCheck s t, o), by simp [get_output, ho, Except.map]⟩

/-- **C8.** Deserialization does not enforce the Running-implies-`end_time`
invariant: the persisted dict `{state: "RUNNING", end_time: null, ...}`
decodes to a RUNNING record with `end_time` absent; rendering that record
hits the unguarded `end_time - now` subtraction and raises `TypeError`;
and under the precondition that every RUNNING record carries an
`end_time`, that failing branch is unreachable (`get_output` succeeds). -/
theorem c8_running_null_end_time (s : PomodoroState) (t : ℚ)
    (h : s.state = TimerState.RUNNING → s.end_time ≠ none) :
    PomodoroState.from_dict runningNullDict
      = Except.ok ⟨TimerState.RUNNING, SessionType.WORK, none, 0, 0⟩ ∧
    (∀ u : ℚ, get_output ⟨TimerState.RUNNING, SessionType.WORK, none, 0, 0⟩ u
      = Except.error PyExc.typeError) ∧
    ∃ r, get_output s t = Except.ok r := by
  exact ⟨rfl, fun u => rfl, get_output_ok s t h⟩

/-- Closed instance of `c8_running_null_end_time` at the default record. -/
theorem c8_running_null_end_time_witness :
    PomodoroState.from_dict runningNullDict
      = Except.ok ⟨TimerState.RUNNING, SessionType.WORK, none, 0, 0⟩ ∧
    (∀ u : ℚ, get_output ⟨TimerState.RUNNING, SessionType.WORK, none, 0, 0⟩ u
      = Except.error PyExc.typeError) ∧
    ∃ r, get_output PomodoroState.stopped 0 = Except.ok r :=
  c8_running_null_end_time PomodoroState.stopped 0 (by decide)

/-- **C9.** Toggling a RUNNING record whose `end_time` lies strictly before
`now` stores the negative `end_time − now` in `remaining_secs` unclamped,
and the PAUSED rendering derives its time string from that raw negative
value (no clamping to `00:00`), whereas the RUNNING rendering applies
`max 0` to `end_time − now` before formatting. -/
theorem c9_negative_pause_unclamped (s : PomodoroState) (e t : ℚ)
    (hr : s.state = TimerState.RUNNING) (he : s.end_time = some e)
    (hlt : e < t) :
    toggle_pause s t
      = Except.ok { s with state := TimerState.PAUSED,
                           remaining_secs := e - t, end_time := none } ∧
    e - t < 0 ∧
    (∀ u s2 o, get_output { s with state := TimerState.PAUSED,
                                   remaining_secs := e - t,
                                   end_time := none } u
        = Except.ok (s2, o) →
      o.text = ICON_PAUSE ++ " " ++ mmss (pytrunc (e - t))) ∧
    (∀ (s' : PomodoroState) (e' u : ℚ) s2 o,
      s'.state = TimerState.RUNNING → s'.end_time = some e' → u < e' →
      get_output s' u = Except.ok (s2, o) →
      o.text = (if s'.session_type = SessionType.WORK then ICON_TOMATO
                else ICON_COFFEE) ++ " "
               ++ mmss (pytrunc (max 0 (e' - u)))) := by
  rcases s with ⟨st, sty, et, rem, w⟩
  simp only at hr he
  subst hr; subst he
  refine ⟨rfl, by linarith, ?_, ?_⟩
  · intro u s2 o h
    have : get_output
        ({ state := TimerState.PAUSED, session_type := sty, end_time := none,
           remaining_secs := e - t, work_sessions := w } : PomodoroState) u
        = Except.ok
            (⟨TimerState.PAUSED, sty, none, e - t, w⟩,
              ⟨ICON_PAUSE ++ " " ++ mmss (pytrunc (e - t)),
               "Paused: " ++ SessionType.str sty ++ "\nClick to resume.",
               "paused"⟩) := by
      simp [get_output, completionCheck, formatOutput, Except.map]
    rw [this] at h
    simp only [Except.ok.injEq, Prod.mk.injEq] at h
    rw [← h.2]
  · intro s' e' u s2 o hr' he' hu h
    rcases s' with ⟨st', sty', et', rem', w'⟩
    simp only at hr' he' ⊢
    subst hr'; subst he'
    have : get_output
        ({ state := TimerState.RUNNING, session_type := sty',
           end_time := some e', remaining_secs := rem',
           work_sessions := w' } : PomodoroState) u
        = Except.ok
            (⟨TimerState.RUNNING, sty', some e', rem', w'⟩,
              ⟨(if sty' = SessionType.WORK then ICON_TOMATO else ICON_COFFEE)
                 ++ " " ++ mmss (pytrunc (max 0 (e' - u))),
               SessionType.str sty' ++ "\nClick to pause.",
               if sty' = SessionType.WORK then "work" else "break"⟩) := by
      have hnot : ¬ e' ≤ u := not_le.mpr hu
      simp [get_output, completionCheck, formatOutput, Except.map, hnot]
    rw [this] at h
    simp only [Except.ok.injEq, Prod.mk.injEq] at h
    rw [← h.2]

/-- Closed instance of `c9_negative_pause_unclamped`: a work session that
ended at 0 is toggled at 100, storing `remaining_secs = 0 − 100 < 0`. -/
theorem c9_negative_pause_unclamped_witness :
    toggle_pause ⟨TimerState.RUNNING, SessionType.WORK, some 0, 1500, 0⟩ 100
      = Except.ok ⟨TimerState.PAUSED, SessionType.WORK, none, 0 - 100, 0⟩ ∧
    (0 : ℚ) - 100 < 0 := by
  have h := c9_negative_pause_unclamped
    ⟨TimerState.RUNNING, SessionType.WORK, some 0, 1500, 0⟩ 0 100 rfl rfl
    (by norm_num)
  exact ⟨h.1, h.2.1⟩

/-- The completion check preserves the counter invariant (it never changes
`work_sessions` or `session_type`). -/
lemma counterInv_completionCheck (s : PomodoroState) (t : ℚ)
    (h : counterInv s) : counterInv (completionCheck s t) := by
  have hf := completionCheck_fields s t
  unfold counterInv at h ⊢
  rw [hf.1, hf.2]
  exact h

/-- `cycle_state` preserves the counter invariant. -/
lemma counterInv_cycle (s : PomodoroState) (t : ℚ) (h : counterInv s) :
    counterInv (cycle_state s t) := by
  obtain ⟨h0, h4, hlb⟩ := h
  rcases s with ⟨st, sty, et, rem, w⟩
  simp only at h0 h4 hlb
  cases st
  case STOPPED =>
    simp [cycle_state, start_session, counterInv]
  case RUNNING =>
    simp [cycle_state, stop_timer, PomodoroState.stopped, counterInv]
  case PAUSED =>
    simp [cycle_state, stop_timer, PomodoroState.stopped, counterInv]
  case FINISHED =>
    cases sty
    case WORK =>
      have hw3 : w ≤ 3 := by
        by_cases hw4 : w = 4
        · exact absurd (hlb hw4) (by decide)
        · omega
      by_cases hm : (w + 1).fmod SESSIONS_PER_CYCLE = 0
      · simp only [cycle_state, hm, start_session, counterInv,
          reduceCtorEq, or_self, if_false, if_true, if_pos]
        refine ⟨by omega, by omega, ?_⟩
        simp
      · have hne : w + 1 ≠ 4 := by
          intro hh
          rw [hh] at hm
          exact hm (by decide)
        simp only [cycle_state, hm, start_session, counterInv,
          reduceCtorEq, or_self, if_false, if_true, if_neg]
        exact ⟨by omega, by omega, fun hh => absurd hh hne⟩
    case SHORT_BREAK =>
      have hne : w ≠ 4 := fun hh => absurd (hlb hh) (by decide)
      simp only [cycle_state, start_session, counterInv, reduceCtorEq,
        or_self, if_false, if_true]
      exact ⟨h0, h4, fun hh => absurd hh hne⟩
    case LONG_BREAK =>
      simp [cycle_state, start_session, counterInv]

/-- One full invocation preserves the counter invariant, whatever the
command and instant. -/
lemma counterInv_apply (s : PomodoroState) (c : Command) (t : ℚ)
    (h : counterInv s) : counterInv (Pomodoro.apply s c t) := by
  unfold Pomodoro.apply
  cases hac : applyCommand s c t with
  | error e => exact h
  | ok s1 =>
    dsimp only
    have h1 : counterInv s1 := by
      cases c with
      | status =>
        simp only [applyCommand, Except.ok.injEq] at hac
        rw [← hac]; exact h
      | toggle =>
        simp only [applyCommand] at hac
        obtain ⟨hw, hs⟩ := toggle_pause_fields s t s1 hac
        unfold counterInv at h ⊢
        rw [hw, hs]; exact h
      | stop =>
        simp only [applyCommand, Except.ok.injEq] at hac
        rw [← hac]; decide
      | cycle =>
        simp only [applyCommand, Except.ok.injEq] at hac
        rw [← hac]
        exact counterInv_cycle s t ⟨h.1, h.2.1, h.2.2⟩
    cases hg : get_output s1 t with
    | error e => exact h
    | ok p =>
      obtain ⟨s2, o⟩ := p
      dsimp only
      have h2 := get_output_ok_state s1 t s2 o hg
      rw [h2]
      exact counterInv_completionCheck s1 t h1

/-- A sequence of invocations starting from the canonical default record
(main.py repeated: load, dispatch one command, completion-check, save). -/
def runInvocations (ops : List (Command × ℚ)) : PomodoroState :=
  ops.foldl (fun s p => Pomodoro.apply s p.1 p.2) PomodoroState.stopped

/-- The counter invariant holds after any fold of invocations over any
invariant-satisfying start record. -/
lemma counterInv_foldl (ops : List (Command × ℚ)) (s : PomodoroState)
    (h : counterInv s) :
    counterInv (ops.foldl (fun a p => Pomodoro.apply a p.1 p.2) s) := by
  induction ops generalizing s with
  | nil => exact h
  | cons p rest ih => exact ih _ (counterInv_apply s p.1 p.2 h)

/-- **C10.** Starting from the canonical default record,
`work_sessions` stays in `[0, SESSIONS_PER_CYCLE] = [0, 4]` under every
sequence of invocations (any commands at any instants), and it equals 4
only while the current `session_type` is LONG_BREAK. -/
theorem c10_work_sessions_invariant (ops : List (Command × ℚ)) :
    0 ≤ (runInvocations ops).work_sessions ∧
    (runInvocations ops).work_sessions ≤ SESSIONS_PER_CYCLE ∧
    ((runInvocations ops).work_sessions = SESSIONS_PER_CYCLE →
      (runInvocations ops).session_type = SessionType.LONG_BREAK) := by
  have h := counterInv_foldl ops PomodoroState.stopped (by decide)
  exact h

/-- Closed instance of `c10_work_sessions_invariant` after one `cycle`. -/
theorem c10_work_sessions_invariant_witness :
    0 ≤ (runInvocations [(Command.cycle, 0)]).work_sessions ∧
    (runInvocations [(Command.cycle, 0)]).work_sessions ≤ SESSIONS_PER_CYCLE ∧
    ((runInvocations [(Command.cycle, 0)]).work_sessions = SESSIONS_PER_CYCLE →
      (runInvocations [(Command.cycle, 0)]).session_type
        = SessionType.LONG_BREAK) :=
  c10_work_sessions_invariant [(Command.cycle, 0)]

end Pomodoro
